import Mathlib

/-!
# The puti logger package and the taxonomy delete handler

A shallow embedding of

* `internal/pkg/logger/logger.go`: the two logger pipelines built on
  `go.uber.org/zap`, the mode switch `InitLogger`, and the public emission
  functions `Info`, `Infof`, ..., `Fatalf`;
* `internal/admin/api/taxonomy/delete.go`: the handler `Delete` and its guard
  `checkIfCanDelete`.

The logging library is not part of the repository.  The fragment of it that the
package drives (`zapcore.NewCore`, `zapcore.NewTee`, `zap.New` with the options
`AddCaller` and `AddCallerSkip`, and the level methods of `zap.Logger`) is
written out below after the library's code, so that the pipelines can be run.
Values the package reads from elsewhere (`config.Log`, `fmt.Sprintf`,
`strconv.Atoi`, the service layer) are parameters.
-/

namespace Puti

/-! ## Source locations and the call stack -/

/-- One frame of the Go call stack: the function that is running and the line it
is currently at. -/
structure Frame where
  File : String
  Line : Nat
  Function : String
deriving DecidableEq, Repr

/-! ## lumberjack: the rotating file writer -/

namespace lumberjack

/-- The fields of `lumberjack.Logger` that `getWriteSyncer` sets, and the
unexported file handle, which is nil in a struct literal: lumberjack opens or
creates the file on the first `Write`, not when the value is built. -/
structure Logger where
  Filename : String
  MaxSize : Int
  MaxBackups : Int
  MaxAge : Int
  file : Option Nat
deriving DecidableEq, Repr

end lumberjack

/-! ## zapcore -/

namespace zapcore

/-- A `zapcore.Level` is a signed integer; the named levels are consecutive. -/
abbrev Level := Int

def DebugLevel : Level := -1

def InfoLevel : Level := 0

def WarnLevel : Level := 1

def ErrorLevel : Level := 2

def DPanicLevel : Level := 3

def PanicLevel : Level := 4

def FatalLevel : Level := 5

/-- The constant `zapcore.OmitKey`. -/
def OmitKey : String := ""

/-- The constant `zapcore.DefaultLineEnding`. -/
def DefaultLineEnding : String := "\n"

/-- The level encoders of zapcore. -/
inductive LevelEncoder where
  | LowercaseLevelEncoder
  | CapitalLevelEncoder
deriving DecidableEq, Repr

/-- The time encoders of zapcore that take a layout. -/
inductive TimeEncoder where
  | TimeEncoderOfLayout (layout : String)
deriving DecidableEq, Repr

/-- The duration encoders of zapcore. -/
inductive DurationEncoder where
  | StringDurationEncoder
  | SecondsDurationEncoder
deriving DecidableEq, Repr

/-- The caller encoders of zapcore. -/
inductive CallerEncoder where
  | ShortCallerEncoder
  | FullCallerEncoder
deriving DecidableEq, Repr

/-- The fields of `zapcore.EncoderConfig` that `newPutiEncoderConfig` sets. -/
structure EncoderConfig where
  TimeKey : String
  LevelKey : String
  NameKey : String
  CallerKey : String
  FunctionKey : String
  MessageKey : String
  StacktraceKey : String
  LineEnding : String
  EncodeLevel : LevelEncoder
  EncodeTime : TimeEncoder
  EncodeDuration : DurationEncoder
  EncodeCaller : CallerEncoder
deriving DecidableEq, Repr

/-- An encoder is its serialisation shape together with its configuration. -/
inductive Encoder where
  | json (cfg : EncoderConfig)
  | console (cfg : EncoderConfig)
deriving DecidableEq, Repr

def NewJSONEncoder (cfg : EncoderConfig) : Encoder := Encoder.json cfg

def NewConsoleEncoder (cfg : EncoderConfig) : Encoder := Encoder.console cfg

/-- The two process streams the package writes to. -/
inductive OsFile where
  | Stdout
  | Stderr
deriving DecidableEq, Repr

/-- A `zapcore.WriteSyncer` as the package builds them: a lumberjack writer
wrapped by `AddSync`, or a process stream wrapped by `Lock`. -/
inductive WriteSyncer where
  | addSync (w : lumberjack.Logger)
  | lock (f : OsFile)
deriving DecidableEq, Repr

def AddSync (w : lumberjack.Logger) : WriteSyncer := WriteSyncer.addSync w

def Lock (f : OsFile) : WriteSyncer := WriteSyncer.lock f

/-- A structured field attached at the log site. -/
structure Field where
  Key : String
  Value : String
deriving DecidableEq, Repr

/-- A `zapcore.Entry`; `Caller` is `none` when the caller is not defined. -/
structure Entry where
  Level : Level
  Time : Nat
  LoggerName : String
  Message : String
  Caller : Option Frame
  Stack : List Frame
deriving DecidableEq, Repr

/-- The core that `zapcore.NewCore` returns: an encoder, a sink and a level
filter. -/
structure ioCore where
  LevelEnabler : Level → Bool
  enc : Encoder
  out : WriteSyncer

/-- A `zapcore.Core`, represented by the leaf cores it fans out to, in order. -/
abbrev Core := List ioCore

def NewCore (enc : Encoder) (ws : WriteSyncer) (enab : Level → Bool) : Core :=
  [{ LevelEnabler := enab, enc := enc, out := ws }]

/-- The function `zapcore.NewTee`: no core gives the no-op core, one core is
returned as it is, several are duplicated into; on leaf lists all three are
concatenation. -/
def NewTee (cores : List Core) : Core := cores.flatten

/-- The terminal behaviour a checked entry carries out after writing. -/
inductive CheckWriteAction where
  | WriteThenNoop
  | WriteThenGoexit
  | WriteThenPanic
  | WriteThenFatal
deriving DecidableEq, Repr

/-- A `zapcore.CheckedEntry`: the entry, the terminal behaviour and the cores
that agreed to write it.  The nil pointer is `none` at the places it is used. -/
structure CheckedEntry where
  Entry : Entry
  should : CheckWriteAction
  cores : List ioCore

/-- The method `(*CheckedEntry).AddCore`, which allocates on a nil receiver. -/
def CheckedEntry.AddCore (ce : Option CheckedEntry) (ent : zapcore.Entry) (core : ioCore) :
    CheckedEntry :=
  match ce with
  | none => { Entry := ent, should := CheckWriteAction.WriteThenNoop, cores := [core] }
  | some ce => { ce with cores := ce.cores ++ [core] }

/-- The method `(*CheckedEntry).After`, which allocates on a nil receiver. -/
def CheckedEntry.After (ce : Option CheckedEntry) (ent : zapcore.Entry)
    (should : CheckWriteAction) :
    CheckedEntry :=
  match ce with
  | none => { Entry := ent, should := should, cores := [] }
  | some ce => { ce with should := should }

def ioCore.Enabled (c : ioCore) (lvl : Level) : Bool := c.LevelEnabler lvl

/-- The method `(*ioCore).Check`: the core adds itself when its filter accepts
the level of the entry. -/
def ioCore.Check (c : ioCore) (ent : Entry) (ce : Option CheckedEntry) : Option CheckedEntry :=
  if c.Enabled ent.Level then some (CheckedEntry.AddCore ce ent c) else ce

/-- The method `multiCore.Enabled`: some leaf accepts the level. -/
def Core.Enabled (core : Core) (lvl : Level) : Bool := core.any (fun c => c.Enabled lvl)

/-- The method `multiCore.Check`: every leaf is asked in turn. -/
def Core.Check (core : Core) (ent : Entry) (ce : Option CheckedEntry) : Option CheckedEntry :=
  core.foldl (fun ce c => c.Check ent ce) ce

/-- What one leaf core hands to its sink for one record. -/
structure Written where
  enc : Encoder
  out : WriteSyncer
  ent : Entry
  fields : List Field
deriving DecidableEq, Repr

/-- The method `(*ioCore).Write`: the entry is encoded by the encoder of the
core and written to the sink of the core. -/
def ioCore.Write (c : ioCore) (ent : Entry) (fields : List Field) : Written :=
  { enc := c.enc, out := c.out, ent := ent, fields := fields }

/-- How an emission hands control back. -/
inductive Control where
  | returned
  | goexit
  | panicked (msg : String)
  | exited (code : Int)
deriving DecidableEq, Repr

/-- The observable effect of one emission. -/
structure Emission where
  writes : List Written
  control : Control
deriving DecidableEq, Repr

/-- The method `(*CheckedEntry).Write`: every core that agreed writes the entry,
then the terminal behaviour is carried out. -/
def CheckedEntry.Write (ce : CheckedEntry) (fields : List Field) : Emission :=
  { writes := ce.cores.map (fun c => c.Write ce.Entry fields)
    control :=
      match ce.should with
      | CheckWriteAction.WriteThenNoop => Control.returned
      | CheckWriteAction.WriteThenGoexit => Control.goexit
      | CheckWriteAction.WriteThenPanic => Control.panicked ce.Entry.Message
      | CheckWriteAction.WriteThenFatal => Control.exited 1 }

/-- The keys the JSON encoder writes for an entry, in order (`EncodeEntry`). -/
def jsonKeys (cfg : EncoderConfig) (ent : Entry) (fields : List Field) : List String :=
  (if cfg.LevelKey ≠ "" then [cfg.LevelKey] else [])
  ++ (if cfg.TimeKey ≠ "" then [cfg.TimeKey] else [])
  ++ (if ent.LoggerName ≠ "" ∧ cfg.NameKey ≠ "" then [cfg.NameKey] else [])
  ++ (if ent.Caller.isSome ∧ cfg.CallerKey ≠ "" then [cfg.CallerKey] else [])
  ++ (if ent.Caller.isSome ∧ cfg.FunctionKey ≠ "" then [cfg.FunctionKey] else [])
  ++ (if cfg.MessageKey ≠ "" then [cfg.MessageKey] else [])
  ++ fields.map (fun f => f.Key)
  ++ (if ent.Stack ≠ [] ∧ cfg.StacktraceKey ≠ "" then [cfg.StacktraceKey] else [])

/-- The keys whose values the console encoder writes for an entry, in order. -/
def consoleKeys (cfg : EncoderConfig) (ent : Entry) (fields : List Field) : List String :=
  (if cfg.TimeKey ≠ "" then [cfg.TimeKey] else [])
  ++ (if cfg.LevelKey ≠ "" then [cfg.LevelKey] else [])
  ++ (if ent.LoggerName ≠ "" ∧ cfg.NameKey ≠ "" then [cfg.NameKey] else [])
  ++ (if ent.Caller.isSome ∧ cfg.CallerKey ≠ "" then [cfg.CallerKey] else [])
  ++ (if ent.Caller.isSome ∧ cfg.FunctionKey ≠ "" then [cfg.FunctionKey] else [])
  ++ (if cfg.MessageKey ≠ "" then [cfg.MessageKey] else [])
  ++ fields.map (fun f => f.Key)
  ++ (if ent.Stack ≠ [] ∧ cfg.StacktraceKey ≠ "" then [cfg.StacktraceKey] else [])

/-- The keys that appear in the encoded form of a written record. -/
def Written.keys (w : Written) : List String :=
  match w.enc with
  | Encoder.json cfg => jsonKeys cfg w.ent w.fields
  | Encoder.console cfg => consoleKeys cfg w.ent w.fields

end zapcore

/-! ## zap: the logger -/

namespace zap

open zapcore

/-- The fields of `zap.Logger` that decide what an emission does. -/
structure Logger where
  core : Core
  development : Bool
  addCaller : Bool
  name : String
  addStack : Level
  callerSkip : Nat

/-- The options of `zap.New`: the two the package passes, and `Development`,
the one that puts a logger in development mode. -/
inductive Opt where
  | AddCaller
  | AddCallerSkip (skip : Nat)
  | Development
deriving DecidableEq, Repr

/-- Applying one option to a logger. -/
def Opt.apply (o : Opt) (log : Logger) : Logger :=
  match o with
  | Opt.AddCaller => { log with addCaller := true }
  | Opt.AddCallerSkip skip => { log with callerSkip := log.callerSkip + skip }
  | Opt.Development => { log with development := true }

/-- The function `zap.New`: a logger on the given core, not in development
mode, without caller annotation, with stack traces above the fatal level
only, then the options in order. -/
def New (core : Core) (options : List Opt) : Logger :=
  options.foldl (fun log o => o.apply log)
    { core := core, development := false, addCaller := false, name := "",
      addStack := FatalLevel + 1, callerSkip := 0 }

/-- The frames `check` itself and the level method that called it occupy. -/
def callerSkipOffset : Nat := 2

/-- The frame of a function of zap. -/
def zapFrame (fn : String) : Frame := { File := "zap/logger.go", Line := 0, Function := fn }

/-- The method `(*Logger).check`.  `stack` is the call stack while `check`
runs, innermost frame first, so its first frame is that of `check` and its
second the level method. -/
def Logger.check (log : Logger) (stack : List Frame) (now : Nat) (lvl : Level) (msg : String) :
    Option CheckedEntry :=
  if lvl < DPanicLevel && !log.core.Enabled lvl then none
  else
    let ent : Entry :=
      { Level := lvl, Time := now, LoggerName := log.name, Message := msg,
        Caller := none, Stack := [] }
    let ce := Core.Check log.core ent none
    let willWrite := ce.isSome
    let ce :=
      if lvl = PanicLevel then some (CheckedEntry.After ce ent CheckWriteAction.WriteThenPanic)
      else if lvl = FatalLevel then
        some (CheckedEntry.After ce ent CheckWriteAction.WriteThenFatal)
      else if lvl = DPanicLevel then
        (if log.development then
          some (CheckedEntry.After ce ent CheckWriteAction.WriteThenPanic)
        else ce)
      else ce
    if !willWrite then ce
    else
      let addStack := decide (log.addStack ≤ lvl)
      if !log.addCaller && !addStack then ce
      else
        ce.map (fun ce =>
          { ce with
            Entry :=
              { ce.Entry with
                Caller :=
                  if log.addCaller then stack.get? (log.callerSkip + callerSkipOffset)
                  else none
                Stack :=
                  if addStack then stack.drop (log.callerSkip + callerSkipOffset) else [] } })

/-- The body shared by the level methods of `zap.Logger`: check, and write when
the checked entry is not nil. -/
def Logger.logAt (log : Logger) (method : String) (lvl : Level) (stack : List Frame) (now : Nat)
    (msg : String) (fields : List Field) : Emission :=
  match log.check (zapFrame "check" :: zapFrame method :: stack) now lvl msg with
  | none => { writes := [], control := Control.returned }
  | some ce => ce.Write fields

def Logger.Info (log : Logger) := log.logAt "Info" InfoLevel

def Logger.Warn (log : Logger) := log.logAt "Warn" WarnLevel

def Logger.Error (log : Logger) := log.logAt "Error" ErrorLevel

def Logger.DPanic (log : Logger) := log.logAt "DPanic" DPanicLevel

def Logger.Panic (log : Logger) := log.logAt "Panic" PanicLevel

def Logger.Fatal (log : Logger) := log.logAt "Fatal" FatalLevel

end zap

/-! ## The configuration package -/

namespace config

/-- The fields of `config.Log` that the logger package reads. -/
structure LogConfig where
  LoggerMaxSize : Int
  LoggerMaxBackups : Int
  LoggerMaxAge : Int
  LoggerFileInfo : String
  LoggerFileError : String
deriving DecidableEq, Repr

end config

/-! ## Package logger (`internal/pkg/logger/logger.go`) -/

namespace logger

open zapcore

/-- The function `newPutiEncoderConfig`. -/
def newPutiEncoderConfig : EncoderConfig :=
  { TimeKey := "time"
    LevelKey := "level"
    NameKey := "name"
    CallerKey := "caller"
    FunctionKey := OmitKey
    MessageKey := "message"
    StacktraceKey := "stacktrace"
    LineEnding := DefaultLineEnding
    EncodeLevel := LevelEncoder.LowercaseLevelEncoder
    EncodeTime := TimeEncoder.TimeEncoderOfLayout "2006-01-02 15:04:05"
    EncodeDuration := DurationEncoder.StringDurationEncoder
    EncodeCaller := CallerEncoder.ShortCallerEncoder }

/-- The function `getWriteSyncer`, with `config.Log` as a parameter. -/
def getWriteSyncer (Log : config.LogConfig) (writemode : String) : WriteSyncer :=
  let sl : lumberjack.Logger :=
    { Filename := ""
      MaxSize := Log.LoggerMaxSize
      MaxBackups := Log.LoggerMaxBackups
      MaxAge := Log.LoggerMaxAge
      file := none }
  if writemode == "error" then
    AddSync { sl with Filename := Log.LoggerFileError }
  else
    AddSync { sl with Filename := Log.LoggerFileInfo }

/-- The level filter `highPriority` of both constructors. -/
def highPriority (lvl : Level) : Bool := decide (lvl ≥ ErrorLevel)

/-- The level filter `lowPriority` of `InitDevelopmentLogger`. -/
def lowPriority (lvl : Level) : Bool := decide (lvl < ErrorLevel)

/-- The function `InitProductionLogger`. -/
def InitProductionLogger (Log : config.LogConfig) : zap.Logger :=
  let core :=
    NewCore (NewJSONEncoder newPutiEncoderConfig) (getWriteSyncer Log "error") highPriority
  zap.New core [zap.Opt.AddCaller, zap.Opt.AddCallerSkip 1]

/-- The function `InitDevelopmentLogger`. -/
def InitDevelopmentLogger (Log : config.LogConfig) : zap.Logger :=
  let core :=
    NewTee
      [ NewCore (NewJSONEncoder newPutiEncoderConfig) (getWriteSyncer Log "info") lowPriority,
        NewCore (NewJSONEncoder newPutiEncoderConfig) (getWriteSyncer Log "error") highPriority,
        NewCore (NewConsoleEncoder newPutiEncoderConfig) (Lock OsFile.Stdout) lowPriority,
        NewCore (NewConsoleEncoder newPutiEncoderConfig) (Lock OsFile.Stderr) highPriority ]
  zap.New core [zap.Opt.AddCaller, zap.Opt.AddCallerSkip 1]

/-- The process-wide loggers: the package variable `logger` and the global
logger of zap, each nil until set. -/
structure Globals where
  logger : Option zap.Logger
  zapGlobal : Option zap.Logger

/-- The function `InitLogger`: it sets the package variable and replaces the
global logger of zap.  The deferred `Sync` flushes and writes no record. -/
def InitLogger (Log : config.LogConfig) (runmode : String) : Globals :=
  let logger :=
    if runmode == "release" then InitProductionLogger Log else InitDevelopmentLogger Log
  { logger := some logger, zapGlobal := some logger }

/-- The frame of a public function of the package while it calls the logger. -/
def wrapperFrame (line : Nat) (fn : String) : Frame :=
  { File := "logger/logger.go", Line := line, Function := fn }

/-- A method call on the nil package variable. -/
def nilLogger : Emission :=
  { writes := []
    control := Control.panicked "invalid memory address or nil pointer dereference" }

/-- The stand-in for a value of type `interface` passed to `fmt.Sprintf`. -/
abbrev Arg := String

/-- The function `Info`.  `stack` is the call stack at the call site, innermost
frame first. -/
def Info (g : Globals) (stack : List Frame) (now : Nat) (msg : String) (fields : List Field) :
    Emission :=
  match g.logger with
  | none => nilLogger
  | some l => l.Info (wrapperFrame 128 "logger.Info" :: stack) now msg fields

/-- The function `Infof`, with `fmt.Sprintf` as a parameter. -/
def Infof (Sprintf : String → List Arg → String) (g : Globals) (stack : List Frame) (now : Nat)
    (template : String) (args : List Arg) : Emission :=
  match g.logger with
  | none => nilLogger
  | some l => l.Info (wrapperFrame 133 "logger.Infof" :: stack) now (Sprintf template args) []

/-- The function `Warn`. -/
def Warn (g : Globals) (stack : List Frame) (now : Nat) (msg : String) (args : List Field) :
    Emission :=
  match g.logger with
  | none => nilLogger
  | some l => l.Warn (wrapperFrame 138 "logger.Warn" :: stack) now msg args

/-- The function `Warnf`. -/
def Warnf (Sprintf : String → List Arg → String) (g : Globals) (stack : List Frame) (now : Nat)
    (template : String) (args : List Arg) : Emission :=
  match g.logger with
  | none => nilLogger
  | some l => l.Warn (wrapperFrame 143 "logger.Warnf" :: stack) now (Sprintf template args) []

/-- The function `Error`. -/
def Error (g : Globals) (stack : List Frame) (now : Nat) (msg : String) (args : List Field) :
    Emission :=
  match g.logger with
  | none => nilLogger
  | some l => l.Error (wrapperFrame 148 "logger.Error" :: stack) now msg args

/-- The function `Errorf`. -/
def Errorf (Sprintf : String → List Arg → String) (g : Globals) (stack : List Frame) (now : Nat)
    (template : String) (args : List Arg) : Emission :=
  match g.logger with
  | none => nilLogger
  | some l => l.Error (wrapperFrame 153 "logger.Errorf" :: stack) now (Sprintf template args) []

/-- The function `DPanic`. -/
def DPanic (g : Globals) (stack : List Frame) (now : Nat) (msg : String) (args : List Field) :
    Emission :=
  match g.logger with
  | none => nilLogger
  | some l => l.DPanic (wrapperFrame 159 "logger.DPanic" :: stack) now msg args

/-- The function `DPanicf`. -/
def DPanicf (Sprintf : String → List Arg → String) (g : Globals) (stack : List Frame) (now : Nat)
    (template : String) (args : List Arg) : Emission :=
  match g.logger with
  | none => nilLogger
  | some l =>
    l.DPanic (wrapperFrame 165 "logger.DPanicf" :: stack) now (Sprintf template args) []

/-- The function `Panic`. -/
def Panic (g : Globals) (stack : List Frame) (now : Nat) (msg : String) (args : List Field) :
    Emission :=
  match g.logger with
  | none => nilLogger
  | some l => l.Panic (wrapperFrame 170 "logger.Panic" :: stack) now msg args

/-- The function `Panicf`. -/
def Panicf (Sprintf : String → List Arg → String) (g : Globals) (stack : List Frame) (now : Nat)
    (template : String) (args : List Arg) : Emission :=
  match g.logger with
  | none => nilLogger
  | some l => l.Panic (wrapperFrame 175 "logger.Panicf" :: stack) now (Sprintf template args) []

/-- The function `Fatal`. -/
def Fatal (g : Globals) (stack : List Frame) (now : Nat) (msg : String) (args : List Field) :
    Emission :=
  match g.logger with
  | none => nilLogger
  | some l => l.Fatal (wrapperFrame 180 "logger.Fatal" :: stack) now msg args

/-- The function `Fatalf`. -/
def Fatalf (Sprintf : String → List Arg → String) (g : Globals) (stack : List Frame) (now : Nat)
    (template : String) (args : List Arg) : Emission :=
  match g.logger with
  | none => nilLogger
  | some l => l.Fatal (wrapperFrame 185 "logger.Fatalf" :: stack) now (Sprintf template args) []

/-! ### Vocabulary of the statements -/

/-- The sink of a leaf core: its encoder and its destination. -/
def sinkOf (c : ioCore) : Encoder × WriteSyncer := (c.enc, c.out)

/-- The rotating file destination on `path` with the rotation policy of the
configuration, its file not yet opened. -/
def fileSink (Log : config.LogConfig) (path : String) : WriteSyncer :=
  WriteSyncer.addSync
    { Filename := path
      MaxSize := Log.LoggerMaxSize
      MaxBackups := Log.LoggerMaxBackups
      MaxAge := Log.LoggerMaxAge
      file := none }

/-- What a core writes for an entry: it is checked against every leaf and
written by those that accepted it. -/
def deliver (core : Core) (ent : Entry) (fields : List Field) : List Written :=
  match Core.Check core ent none with
  | none => []
  | some ce => (ce.Write fields).writes

/-- The sinks a core delivers an entry to. -/
def reached (core : Core) (ent : Entry) (fields : List Field) : List (Encoder × WriteSyncer) :=
  (deliver core ent fields).map (fun w => (w.enc, w.out))

/-- The entry a logger of the package writes for an emission whose stack is
`stack` while the public function runs: the first frame is the public function,
the second its call site. -/
def entryAt (lvl : Level) (stack : List Frame) (now : Nat) (msg : String) : Entry :=
  { Level := lvl, Time := now, LoggerName := "", Message := msg,
    Caller := stack.get? 1,
    Stack := if FatalLevel + 1 ≤ lvl then stack.drop 1 else [] }

/-- How control returns after an emission at a level by a logger that is not in
development mode. -/
def controlAt (lvl : Level) (msg : String) : Control :=
  if lvl = PanicLevel then Control.panicked msg
  else if lvl = FatalLevel then Control.exited 1
  else Control.returned

/-- What an emission shows of level, message, fields and sinks, and how control
returns: the caller and the stack trace are left out. -/
def summary (e : Emission) :
    List (Encoder × WriteSyncer × Level × String × List Field) × Control :=
  (e.writes.map (fun w => (w.enc, w.out, w.ent.Level, w.ent.Message, w.fields)), e.control)

/-- One call of a public emission function of the package. -/
inductive Call where
  | Info (msg : String) (fields : List Field)
  | Infof (template : String) (args : List Arg)
  | Warn (msg : String) (args : List Field)
  | Warnf (template : String) (args : List Arg)
  | Error (msg : String) (args : List Field)
  | Errorf (template : String) (args : List Arg)
  | DPanic (msg : String) (args : List Field)
  | DPanicf (template : String) (args : List Arg)
  | Panic (msg : String) (args : List Field)
  | Panicf (template : String) (args : List Arg)
  | Fatal (msg : String) (args : List Field)
  | Fatalf (template : String) (args : List Arg)
deriving DecidableEq, Repr

/-- Running a call of a public emission function from the call site `stack`. -/
def Call.run (Sprintf : String → List Arg → String) (g : Globals) (stack : List Frame)
    (now : Nat) : Call → Emission
  | Call.Info msg fields => logger.Info g stack now msg fields
  | Call.Infof template args => logger.Infof Sprintf g stack now template args
  | Call.Warn msg args => logger.Warn g stack now msg args
  | Call.Warnf template args => logger.Warnf Sprintf g stack now template args
  | Call.Error msg args => logger.Error g stack now msg args
  | Call.Errorf template args => logger.Errorf Sprintf g stack now template args
  | Call.DPanic msg args => logger.DPanic g stack now msg args
  | Call.DPanicf template args => logger.DPanicf Sprintf g stack now template args
  | Call.Panic msg args => logger.Panic g stack now msg args
  | Call.Panicf template args => logger.Panicf Sprintf g stack now template args
  | Call.Fatal msg args => logger.Fatal g stack now msg args
  | Call.Fatalf template args => logger.Fatalf Sprintf g stack now template args

/-- The level of the zap method a public emission function calls. -/
def Call.level : Call → Level
  | Call.Info _ _ => InfoLevel
  | Call.Infof _ _ => InfoLevel
  | Call.Warn _ _ => WarnLevel
  | Call.Warnf _ _ => WarnLevel
  | Call.Error _ _ => ErrorLevel
  | Call.Errorf _ _ => ErrorLevel
  | Call.DPanic _ _ => DPanicLevel
  | Call.DPanicf _ _ => DPanicLevel
  | Call.Panic _ _ => PanicLevel
  | Call.Panicf _ _ => PanicLevel
  | Call.Fatal _ _ => FatalLevel
  | Call.Fatalf _ _ => FatalLevel

/-- The file system as the constructors could touch it: which paths can be
opened or created, and the paths opened so far. -/
structure FileSystem where
  canOpen : String → Bool
  opened : List String

/-- What the caller of a constructor gets back. -/
inductive Outcome (α : Type) where
  | returned (v : α)
  | failed (err : String)

/-- A call of `InitProductionLogger` on a file system.  The result type is a
logger alone; the body fills struct literals and opens no file. -/
def InitProductionLogger.call (Log : config.LogConfig) (fs : FileSystem) :
    Outcome zap.Logger × FileSystem :=
  (Outcome.returned (InitProductionLogger Log), fs)

/-- A call of `InitDevelopmentLogger` on a file system.  The result type is a
logger alone; the body fills struct literals and opens no file. -/
def InitDevelopmentLogger.call (Log : config.LogConfig) (fs : FileSystem) :
    Outcome zap.Logger × FileSystem :=
  (Outcome.returned (InitDevelopmentLogger Log), fs)

/-- A call of `InitLogger` on a file system.  It has no result; it sets the
process-wide loggers through whichever constructor the mode selects. -/
def InitLogger.call (Log : config.LogConfig) (runmode : String) (fs : FileSystem) :
    Outcome Globals × FileSystem :=
  (Outcome.returned (InitLogger Log runmode), fs)

/-! ### Sample inputs -/

/-- A rotation configuration. -/
def sampleLog : config.LogConfig :=
  { LoggerMaxSize := 20, LoggerMaxBackups := 5, LoggerMaxAge := 30,
    LoggerFileInfo := "log/info.log", LoggerFileError := "log/error.log" }

/-- A rotation configuration whose paths lie under a directory that does not
exist. -/
def badLog : config.LogConfig :=
  { LoggerMaxSize := 20, LoggerMaxBackups := 5, LoggerMaxAge := 30,
    LoggerFileInfo := "/nonexistent/info.log", LoggerFileError := "/nonexistent/error.log" }

/-- A file system on which no path can be opened or created. -/
def closedFs : FileSystem := { canOpen := fun _ => false, opened := [] }

/-- A call site. -/
def sampleSite : Frame := { File := "router/router.go", Line := 42, Function := "router.Load" }

/-- An entry at the info level. -/
def sampleInfoEntry : Entry :=
  { Level := InfoLevel, Time := 0, LoggerName := "", Message := "started",
    Caller := some sampleSite, Stack := [] }

/-- An entry at the error level. -/
def sampleErrorEntry : Entry :=
  { Level := ErrorLevel, Time := 0, LoggerName := "", Message := "failed",
    Caller := some sampleSite, Stack := [] }

end logger

/-! ## The taxonomy delete handler (`internal/admin/api/taxonomy/delete.go`) -/

namespace taxonomy

/-- The errors the handler passes on: the constants of package `errno`, an
`errno.New(e, nil).Add(msg)` value, and whatever the service layer returns. -/
inductive Error where
  | ErrValidation
  | ErrDatabase
  | NewAdd (e : Error) (msg : String)
  | service (msg : String)
deriving DecidableEq, Repr

/-- The two methods of `service.Service` the handler calls, as parameters. -/
structure Service where
  IfTaxonomyHasChild : Nat → String → Bool × Option Error
  DeleteTaxonomy : Nat → String → Option Error

/-- The request as the handler reads it from the gin context. -/
structure Context where
  Param : String → String
  Query : String → String

/-- The calls the handler makes to its collaborators, in order. -/
inductive Event where
  | IfTaxonomyHasChild (termID : Nat) (taxonomyType : String)
  | DeleteTaxonomy (termID : Nat) (taxonomyType : String)
  | SendResponse (err : Option Error)
deriving DecidableEq, Repr

/-- The function `checkIfCanDelete`: its result and the calls it made. -/
def checkIfCanDelete (svc : Service) (termID : Nat) (taxonomyType : String) :
    Option Error × List Event :=
  if taxonomyType != "category" && taxonomyType != "tag" then
    (some (Error.NewAdd Error.ErrValidation "error taxonomy."), [])
  else
    match svc.IfTaxonomyHasChild termID taxonomyType with
    | (_, some err) => (some err, [Event.IfTaxonomyHasChild termID taxonomyType])
    | (ifHasChild, none) =>
      if ifHasChild == true then
        (some (Error.NewAdd Error.ErrValidation "taxonomy has children and can not be deleted"),
          [Event.IfTaxonomyHasChild termID taxonomyType])
      else (none, [Event.IfTaxonomyHasChild termID taxonomyType])

/-- The conversion `uint64(ID)` of a Go `int`. -/
def toUint64 (ID : Int) : Nat := (ID % 2 ^ 64).toNat

/-- The handler `Delete`, with `strconv.Atoi` (its error dropped) as a
parameter: the calls it makes, in order. -/
def Delete (Atoi : String → Int) (svc : Service) (c : Context) : List Event :=
  let ID := Atoi (c.Param "id")
  let taxonomyType := c.Query "taxonomy"
  let termID := toUint64 ID
  match checkIfCanDelete svc termID taxonomyType with
  | (some err, evs) => evs ++ [Event.SendResponse (some err)]
  | (none, evs) =>
    match svc.DeleteTaxonomy termID taxonomyType with
    | some _ =>
      evs ++ [Event.DeleteTaxonomy termID taxonomyType,
        Event.SendResponse (some Error.ErrDatabase)]
    | none => evs ++ [Event.DeleteTaxonomy termID taxonomyType, Event.SendResponse none]

/-- Whether a trace contains a call of `DeleteTaxonomy`. -/
def deletes (evs : List Event) : Bool :=
  evs.any (fun e =>
    match e with
    | Event.DeleteTaxonomy _ _ => true
    | _ => false)

end taxonomy

end Puti

/-! ## Theorems about package logger -/

namespace Puti.logger

open zapcore

/-- The emission of the production logger at any level, in closed form. -/
theorem production_logAt (Log : config.LogConfig) (method : String) (lvl : Level)
    (stack : List Frame) (now : Nat) (msg : String) (fields : List Field) :
    (InitProductionLogger Log).logAt method lvl stack now msg fields =
      if lvl < ErrorLevel then { writes := [], control := Control.returned }
      else
        { writes :=
            [ { enc := Encoder.json newPutiEncoderConfig
                out := fileSink Log Log.LoggerFileError
                ent := entryAt lvl stack now msg
                fields := fields } ]
          control := controlAt lvl msg } := by
  by_cases h : lvl < ErrorLevel
  · have h3 : lvl < DPanicLevel := lt_trans h (by decide)
    have h1 : ¬ (ErrorLevel ≤ lvl) := not_le.mpr h
    simp [InitProductionLogger, zap.New, zap.Opt.apply, NewCore, zap.Logger.logAt,
      zap.Logger.check, Core.Enabled, ioCore.Enabled, highPriority, h, h1, h3]
  · have h1 : ErrorLevel ≤ lvl := not_lt.mp h
    simp only [h, if_false]
    by_cases h4 : lvl = PanicLevel
    · subst h4
      simp [InitProductionLogger, zap.New, zap.Opt.apply, NewCore, zap.Logger.logAt,
        zap.Logger.check, Core.Enabled, Core.Check, ioCore.Check, ioCore.Enabled, highPriority,
        CheckedEntry.AddCore, CheckedEntry.After, DPanicLevel, PanicLevel, FatalLevel, ErrorLevel,
        CheckedEntry.Write, ioCore.Write, entryAt, controlAt, fileSink, getWriteSyncer, AddSync,
        NewJSONEncoder, zap.callerSkipOffset]
    · by_cases h5 : lvl = FatalLevel
      · subst h5
        simp [InitProductionLogger, zap.New, zap.Opt.apply, NewCore, zap.Logger.logAt,
          zap.Logger.check, Core.Enabled, Core.Check, ioCore.Check, ioCore.Enabled, highPriority,
          CheckedEntry.AddCore, CheckedEntry.After, DPanicLevel, PanicLevel, FatalLevel,
          ErrorLevel, CheckedEntry.Write, ioCore.Write, entryAt, controlAt, fileSink,
          getWriteSyncer, AddSync, NewJSONEncoder, zap.callerSkipOffset]
      · have h4' : ¬ lvl = 4 := h4
        have h5' : ¬ lvl = 5 := h5
        have h2 : (2:Int) ≤ lvl := h1
        simp [InitProductionLogger, zap.New, zap.Opt.apply, NewCore, zap.Logger.logAt,
          zap.Logger.check, Core.Enabled, Core.Check, ioCore.Check, ioCore.Enabled, highPriority,
          CheckedEntry.AddCore, CheckedEntry.After, DPanicLevel, PanicLevel, FatalLevel,
          ErrorLevel, CheckedEntry.Write, ioCore.Write, entryAt, controlAt, fileSink,
          getWriteSyncer, AddSync, NewJSONEncoder, zap.callerSkipOffset, h4', h5', h2]

/-- The emission of the development logger at any level, in closed form. -/
theorem development_logAt (Log : config.LogConfig) (method : String) (lvl : Level)
    (stack : List Frame) (now : Nat) (msg : String) (fields : List Field) :
    (InitDevelopmentLogger Log).logAt method lvl stack now msg fields =
      { writes :=
          if lvl < ErrorLevel then
            [ { enc := Encoder.json newPutiEncoderConfig
                out := fileSink Log Log.LoggerFileInfo
                ent := entryAt lvl stack now msg
                fields := fields },
              { enc := Encoder.console newPutiEncoderConfig
                out := WriteSyncer.lock OsFile.Stdout
                ent := entryAt lvl stack now msg
                fields := fields } ]
          else
            [ { enc := Encoder.json newPutiEncoderConfig
                out := fileSink Log Log.LoggerFileError
                ent := entryAt lvl stack now msg
                fields := fields },
              { enc := Encoder.console newPutiEncoderConfig
                out := WriteSyncer.lock OsFile.Stderr
                ent := entryAt lvl stack now msg
                fields := fields } ]
        control := controlAt lvl msg } := by
  by_cases h : lvl < ErrorLevel
  · have h3 : lvl < DPanicLevel := lt_trans h (by decide)
    have h1 : ¬ (ErrorLevel ≤ lvl) := not_le.mpr h
    have h4 : ¬ lvl = PanicLevel := fun e => by rw [e] at h; exact absurd h (by decide)
    have h5 : ¬ lvl = FatalLevel := fun e => by rw [e] at h; exact absurd h (by decide)
    have h6 : ¬ lvl = DPanicLevel := fun e => by rw [e] at h; exact absurd h (by decide)
    have h7 : ¬ (FatalLevel + 1 ≤ lvl) := fun e => by
      have : FatalLevel + 1 < ErrorLevel := lt_of_le_of_lt e h
      exact absurd this (by decide)
    simp [InitDevelopmentLogger, zap.New, zap.Opt.apply, NewTee, NewCore, zap.Logger.logAt,
      zap.Logger.check, Core.Enabled, Core.Check, ioCore.Check, ioCore.Enabled, highPriority,
      lowPriority, CheckedEntry.AddCore, CheckedEntry.After, CheckedEntry.Write, ioCore.Write,
      entryAt, controlAt, fileSink, getWriteSyncer, AddSync, Lock, NewJSONEncoder,
      NewConsoleEncoder, zap.callerSkipOffset, h, h1, h3, h4, h5, h6, h7]
  · have h1 : ErrorLevel ≤ lvl := not_lt.mp h
    by_cases h4 : lvl = PanicLevel
    · subst h4
      simp [InitDevelopmentLogger, zap.New, zap.Opt.apply, NewTee, NewCore, zap.Logger.logAt,
        zap.Logger.check, Core.Enabled, Core.Check, ioCore.Check, ioCore.Enabled, highPriority,
        lowPriority, CheckedEntry.AddCore, CheckedEntry.After, CheckedEntry.Write, ioCore.Write,
        entryAt, controlAt, fileSink, getWriteSyncer, AddSync, Lock, NewJSONEncoder,
        NewConsoleEncoder, zap.callerSkipOffset, DPanicLevel, PanicLevel, FatalLevel, ErrorLevel]
    · by_cases h5 : lvl = FatalLevel
      · subst h5
        simp [InitDevelopmentLogger, zap.New, zap.Opt.apply, NewTee, NewCore, zap.Logger.logAt,
          zap.Logger.check, Core.Enabled, Core.Check, ioCore.Check, ioCore.Enabled, highPriority,
          lowPriority, CheckedEntry.AddCore, CheckedEntry.After, CheckedEntry.Write,
          ioCore.Write, entryAt, controlAt, fileSink, getWriteSyncer, AddSync, Lock,
          NewJSONEncoder, NewConsoleEncoder, zap.callerSkipOffset, DPanicLevel, PanicLevel,
          FatalLevel, ErrorLevel]
      · have h4' : ¬ lvl = 4 := h4
        have h5' : ¬ lvl = 5 := h5
        have h2 : (2:Int) ≤ lvl := h1
        have h2' : ¬ lvl < 2 := not_lt.mpr h2
        simp [InitDevelopmentLogger, zap.New, zap.Opt.apply, NewTee, NewCore, zap.Logger.logAt,
          zap.Logger.check, Core.Enabled, Core.Check, ioCore.Check, ioCore.Enabled, highPriority,
          lowPriority, CheckedEntry.AddCore, CheckedEntry.After, CheckedEntry.Write,
          ioCore.Write, entryAt, controlAt, fileSink, getWriteSyncer, AddSync, Lock,
          NewJSONEncoder, NewConsoleEncoder, zap.callerSkipOffset, DPanicLevel, PanicLevel,
          FatalLevel, ErrorLevel, h4', h5', h2, h2']

/-- Claim C1: for every level below error, the core built by `InitDevelopmentLogger`
has four sinks (info file as JSON, error file as JSON, standard-out console,
standard-error console), its filters accept the level at the first and third
and reject it at the second and fourth, and a record of that level is written
to exactly the info file sink and the standard-out console sink. -/
theorem development_routes_below_error (Log : config.LogConfig) (ent : Entry)
    (fields : List Field) (h : ent.Level < ErrorLevel) :
    (InitDevelopmentLogger Log).core.map sinkOf =
      [ (Encoder.json newPutiEncoderConfig, fileSink Log Log.LoggerFileInfo),
        (Encoder.json newPutiEncoderConfig, fileSink Log Log.LoggerFileError),
        (Encoder.console newPutiEncoderConfig, WriteSyncer.lock OsFile.Stdout),
        (Encoder.console newPutiEncoderConfig, WriteSyncer.lock OsFile.Stderr) ]
    ∧ (InitDevelopmentLogger Log).core.map (fun c => c.Enabled ent.Level) =
      [true, false, true, false]
    ∧ deliver (InitDevelopmentLogger Log).core ent fields =
      [ { enc := Encoder.json newPutiEncoderConfig, out := fileSink Log Log.LoggerFileInfo,
          ent := ent, fields := fields },
        { enc := Encoder.console newPutiEncoderConfig, out := WriteSyncer.lock OsFile.Stdout,
          ent := ent, fields := fields } ] := by
  have h1 : ¬ (ErrorLevel ≤ ent.Level) := not_le.mpr h
  refine ⟨rfl, ?_, ?_⟩
  · simp [InitDevelopmentLogger, zap.New, zap.Opt.apply, NewTee, NewCore, ioCore.Enabled,
      lowPriority, highPriority, h, h1]
  · simp [deliver, InitDevelopmentLogger, zap.New, zap.Opt.apply, NewTee, NewCore, Core.Check,
      ioCore.Check, ioCore.Enabled, lowPriority, highPriority, h, h1, CheckedEntry.AddCore,
      CheckedEntry.Write, ioCore.Write, fileSink, getWriteSyncer, AddSync, NewJSONEncoder,
      NewConsoleEncoder, Lock]

/-- Witness of C1: an info record on the sample configuration reaches the info
file and standard-out, and nothing else. -/
theorem development_routes_below_error_witness :
    sampleInfoEntry.Level < ErrorLevel
    ∧ reached (InitDevelopmentLogger sampleLog).core sampleInfoEntry [] =
      [ (Encoder.json newPutiEncoderConfig, fileSink sampleLog "log/info.log"),
        (Encoder.console newPutiEncoderConfig, WriteSyncer.lock OsFile.Stdout) ] := by
  have h : sampleInfoEntry.Level < ErrorLevel := by decide
  refine ⟨h, ?_⟩
  have key := (development_routes_below_error sampleLog sampleInfoEntry [] h).2.2
  rw [reached, key]
  rfl

/-- Claim C2: for every level at or above error, the core built by
`InitDevelopmentLogger` has four sinks (info file as JSON, error file as JSON,
standard-out console, standard-error console), its filters accept the level at
the second and fourth and reject it at the first and third, and a record of
that level is written to exactly the error file sink and the standard-error
console sink. -/
theorem development_routes_error_and_above (Log : config.LogConfig) (ent : Entry)
    (fields : List Field) (h : ErrorLevel ≤ ent.Level) :
    (InitDevelopmentLogger Log).core.map sinkOf =
      [ (Encoder.json newPutiEncoderConfig, fileSink Log Log.LoggerFileInfo),
        (Encoder.json newPutiEncoderConfig, fileSink Log Log.LoggerFileError),
        (Encoder.console newPutiEncoderConfig, WriteSyncer.lock OsFile.Stdout),
        (Encoder.console newPutiEncoderConfig, WriteSyncer.lock OsFile.Stderr) ]
    ∧ (InitDevelopmentLogger Log).core.map (fun c => c.Enabled ent.Level) =
      [false, true, false, true]
    ∧ deliver (InitDevelopmentLogger Log).core ent fields =
      [ { enc := Encoder.json newPutiEncoderConfig, out := fileSink Log Log.LoggerFileError,
          ent := ent, fields := fields },
        { enc := Encoder.console newPutiEncoderConfig, out := WriteSyncer.lock OsFile.Stderr,
          ent := ent, fields := fields } ] := by
  have h1 : ¬ (ent.Level < ErrorLevel) := not_lt.mpr h
  refine ⟨rfl, ?_, ?_⟩
  · simp [InitDevelopmentLogger, zap.New, zap.Opt.apply, NewTee, NewCore, ioCore.Enabled,
      lowPriority, highPriority, h, h1]
  · simp [deliver, InitDevelopmentLogger, zap.New, zap.Opt.apply, NewTee, NewCore, Core.Check,
      ioCore.Check, ioCore.Enabled, lowPriority, highPriority, h, h1, CheckedEntry.AddCore,
      CheckedEntry.Write, ioCore.Write, fileSink, getWriteSyncer, AddSync, NewJSONEncoder,
      NewConsoleEncoder, Lock]

/-- Witness of C2: an error record on the sample configuration reaches the
error file and standard-error, and nothing else. -/
theorem development_routes_error_and_above_witness :
    ErrorLevel ≤ sampleErrorEntry.Level
    ∧ reached (InitDevelopmentLogger sampleLog).core sampleErrorEntry [] =
      [ (Encoder.json newPutiEncoderConfig, fileSink sampleLog "log/error.log"),
        (Encoder.console newPutiEncoderConfig, WriteSyncer.lock OsFile.Stderr) ] := by
  have h : ErrorLevel ≤ sampleErrorEntry.Level := by decide
  refine ⟨h, ?_⟩
  have key := (development_routes_error_and_above sampleLog sampleErrorEntry [] h).2.2
  rw [reached, key]
  rfl

/-- Claim C3: the logger built by `InitProductionLogger` has exactly one sink, the
error log file with the JSON encoder and no console; an emission at any level
writes something if and only if the level is at or above error, and below
error it writes nothing and returns. -/
theorem production_single_sink_error_only (Log : config.LogConfig) (method : String)
    (lvl : Level) (stack : List Frame) (now : Nat) (msg : String) (fields : List Field) :
    (InitProductionLogger Log).core.map sinkOf =
      [(Encoder.json newPutiEncoderConfig, fileSink Log Log.LoggerFileError)]
    ∧ (((InitProductionLogger Log).logAt method lvl stack now msg fields).writes ≠ [] ↔
        ErrorLevel ≤ lvl)
    ∧ ((InitProductionLogger Log).logAt method lvl stack now msg fields =
          { writes := [], control := Control.returned } ↔ lvl < ErrorLevel) := by
  refine ⟨rfl, ?_, ?_⟩
  · rw [production_logAt]
    by_cases h : lvl < ErrorLevel
    · simp [h]
    · simp [h, not_lt.mp h]
  · rw [production_logAt]
    by_cases h : lvl < ErrorLevel
    · simp [h]
    · simp [h]

/-- Claim C4: `InitLogger` installs the production logger exactly when the mode is
the string "release", and the development logger for every other string, the
empty string and "Release" among them; the global logger of zap is set to the
same logger. -/
theorem InitLogger_release_iff (Log : config.LogConfig) (runmode : String) :
    ((InitLogger Log runmode).logger = some (InitProductionLogger Log) ↔ runmode = "release")
    ∧ ((InitLogger Log runmode).logger = some (InitDevelopmentLogger Log) ↔
        runmode ≠ "release")
    ∧ (InitLogger Log runmode).zapGlobal = (InitLogger Log runmode).logger
    ∧ (InitLogger Log "").logger = some (InitDevelopmentLogger Log)
    ∧ (InitLogger Log "Release").logger = some (InitDevelopmentLogger Log) := by
  have hne : InitDevelopmentLogger Log ≠ InitProductionLogger Log := by
    intro e
    have := congrArg (fun l => l.core.length) e
    simp [InitDevelopmentLogger, InitProductionLogger, zap.New, zap.Opt.apply, NewTee,
      NewCore] at this
  refine ⟨?_, ?_, rfl, ?_, ?_⟩
  · by_cases h : runmode = "release"
    · simp [InitLogger, h]
    · simp [InitLogger, h, hne]
  · by_cases h : runmode = "release"
    · simp [InitLogger, h, hne.symm]
    · simp [InitLogger, h]
  · simp [InitLogger]
  · simp [InitLogger]

/-- Rewriting the caller and the stack trace of a checked entry does not change
the summary of what it writes. -/
theorem summary_annotate (ce : Option CheckedEntry) (fields : List Field)
    (c1 c2 : Option Frame) (t1 t2 : List Frame) :
    summary
        (match ce.map (fun ce =>
            { ce with Entry := { ce.Entry with Caller := c1, Stack := t1 } }) with
          | none => { writes := [], control := Control.returned }
          | some ce => ce.Write fields) =
      summary
        (match ce.map (fun ce =>
            { ce with Entry := { ce.Entry with Caller := c2, Stack := t2 } }) with
          | none => { writes := [], control := Control.returned }
          | some ce => ce.Write fields) := by
  cases ce with
  | none => rfl
  | some ce => simp [summary, CheckedEntry.Write, ioCore.Write]

/-- The call stack changes only the caller and the stack trace of what a logger
writes. -/
theorem logAt_summary_stack (l : zap.Logger) (method : String) (lvl : Level)
    (s1 s2 : List Frame) (now : Nat) (msg : String) (fields : List Field) :
    summary (l.logAt method lvl s1 now msg fields) =
      summary (l.logAt method lvl s2 now msg fields) := by
  unfold zap.Logger.logAt zap.Logger.check
  by_cases hd : (decide (lvl < DPanicLevel) && !l.core.Enabled lvl) = true
  · simp only [hd, if_true]
  · simp only [hd]
    cases Core.Check l.core
        { Level := lvl, Time := now, LoggerName := l.name, Message := msg, Caller := none,
          Stack := [] } none with
    | none => rfl
    | some ce =>
      simp only [Option.isSome_some, Bool.not_true, Bool.false_eq_true, if_false]
      by_cases ha : (!l.addCaller && !decide (l.addStack ≤ lvl)) = true
      · simp only [ha, if_true]
      · simp only [ha, if_false]
        exact summary_annotate _ _ _ _ _ _

/-- The frame of the public function itself does not show in the entry. -/
theorem entryAt_wrapper (lvl : Level) (w1 w2 : Frame) (stack : List Frame) (now : Nat)
    (msg : String) :
    entryAt lvl (w1 :: stack) now msg = entryAt lvl (w2 :: stack) now msg := by
  simp [entryAt]

/-- The logger `InitLogger` installs. -/
theorem InitLogger_logger (Log : config.LogConfig) (runmode : String) :
    (InitLogger Log runmode).logger =
      some (if runmode = "release" then InitProductionLogger Log
        else InitDevelopmentLogger Log) := by
  by_cases h : runmode = "release" <;> simp [InitLogger, h]

/-- What the installed logger does is the same from any public function called
at the same site. -/
theorem installed_logAt_wrapper (Log : config.LogConfig) (runmode method : String)
    (lvl : Level) (w1 w2 : Frame) (stack : List Frame) (now : Nat) (msg : String)
    (fields : List Field) :
    (if runmode = "release" then InitProductionLogger Log
        else InitDevelopmentLogger Log).logAt method lvl (w1 :: stack) now msg fields =
      (if runmode = "release" then InitProductionLogger Log
        else InitDevelopmentLogger Log).logAt method lvl (w2 :: stack) now msg fields := by
  by_cases h : runmode = "release"
  · simp only [h, if_true]
    rw [production_logAt, production_logAt, entryAt_wrapper lvl w1 w2]
  · simp only [h, if_false]
    rw [development_logAt, development_logAt, entryAt_wrapper lvl w1 w2]

/-- Every record the installed logger writes names the frame below the public
function as its caller. -/
theorem installed_logAt_caller (Log : config.LogConfig) (runmode method : String)
    (lvl : Level) (w site : Frame) (rest : List Frame) (now : Nat) (msg : String)
    (fields : List Field) :
    ∀ r ∈ ((if runmode = "release" then InitProductionLogger Log
        else InitDevelopmentLogger Log).logAt method lvl (w :: site :: rest) now msg
          fields).writes,
      r.ent.Caller = some site := by
  by_cases h : runmode = "release"
  · simp only [h, if_true]
    rw [production_logAt]
    by_cases hl : lvl < ErrorLevel <;> simp [hl, entryAt]
  · simp only [h, if_false]
    rw [development_logAt]
    by_cases hl : lvl < ErrorLevel <;> simp [hl, entryAt]

/-- The records the installed logger writes, by level and caller: two on the
development logger, one on the production logger at or above error, none
below, each naming the frame below the public function. -/
theorem installed_logAt_records (Log : config.LogConfig) (runmode method : String)
    (lvl : Level) (w site : Frame) (rest : List Frame) (now : Nat) (msg : String)
    (fields : List Field) :
    ((if runmode = "release" then InitProductionLogger Log
        else InitDevelopmentLogger Log).logAt method lvl (w :: site :: rest) now msg
          fields).writes.map (fun r => (r.ent.Level, r.ent.Caller)) =
      if runmode = "release" then
        (if lvl < ErrorLevel then [] else [(lvl, some site)])
      else [(lvl, some site), (lvl, some site)] := by
  by_cases h : runmode = "release"
  · simp only [h, if_true]
    rw [production_logAt]
    by_cases hl : lvl < ErrorLevel <;> simp [hl, entryAt]
  · simp only [h, if_false]
    rw [development_logAt]
    by_cases hl : lvl < ErrorLevel <;> simp [hl, entryAt]

/-- Claim C7: both constructors build a logger with caller capture on and a
caller skip of one frame, and every record written by a public emission
function on the logger `InitLogger` installs, in either mode, names as its
caller the frame of the call site of that public function; an error emission
does write a record.  For each of the twelve public functions the records are
given in full by level and caller: on the development logger the call writes
two records, on the production logger one when its level is at or above error
and none below, and every one of them carries the level of the function and
the call site as caller. -/
theorem caller_is_public_call_site (Sprintf : String → List Arg → String)
    (Log : config.LogConfig)
    (runmode : String) (site : Frame) (rest : List Frame) (now : Nat) (call : Call) :
    ((InitProductionLogger Log).addCaller = true ∧ (InitProductionLogger Log).callerSkip = 1)
    ∧ ((InitDevelopmentLogger Log).addCaller = true
        ∧ (InitDevelopmentLogger Log).callerSkip = 1)
    ∧ (∀ r ∈ (call.run Sprintf (InitLogger Log runmode) (site :: rest) now).writes,
        r.ent.Caller = some site)
    ∧ (∀ msg : String,
        ((Call.Error msg []).run Sprintf (InitLogger Log runmode) (site :: rest) now).writes ≠
          [])
    ∧ (call.run Sprintf (InitLogger Log runmode) (site :: rest) now).writes.map
        (fun r => (r.ent.Level, r.ent.Caller)) =
      (if runmode = "release" then
        (if call.level < ErrorLevel then [] else [(call.level, some site)])
      else [(call.level, some site), (call.level, some site)]) := by
  refine ⟨⟨rfl, rfl⟩, ⟨rfl, rfl⟩, ?_, ?_, ?_⟩
  · cases call <;>
      simp only [Call.run, Info, Infof, Warn, Warnf, Error, Errorf, DPanic, DPanicf, Panic,
        Panicf, Fatal, Fatalf, InitLogger_logger, zap.Logger.Info, zap.Logger.Warn,
        zap.Logger.Error, zap.Logger.DPanic, zap.Logger.Panic, zap.Logger.Fatal] <;>
      exact installed_logAt_caller _ _ _ _ _ _ _ _ _ _
  · intro msg
    simp only [Call.run, Error, InitLogger_logger, zap.Logger.Error]
    by_cases h : runmode = "release"
    · simp only [h, if_true]
      rw [production_logAt]
      simp [ErrorLevel]
    · simp only [h, if_false]
      rw [development_logAt]
      simp [ErrorLevel]
  · cases call <;>
      simp only [Call.run, Call.level, Info, Infof, Warn, Warnf, Error, Errorf, DPanic, DPanicf,
        Panic, Panicf, Fatal, Fatalf, InitLogger_logger, zap.Logger.Info, zap.Logger.Warn,
        zap.Logger.Error, zap.Logger.DPanic, zap.Logger.Panic, zap.Logger.Fatal] <;>
      exact installed_logAt_records _ _ _ _ _ _ _ _ _ _

/-- Claim C9: each formatted variant does what the plain variant of the same
severity does with the message `Sprintf template args` and no fields.  On any
value of the package variable the two agree on control and, sink by sink, on
level, message and fields; on the logger `InitLogger` installs they agree
outright. -/
theorem formatted_variant_is_plain_of_Sprintf (Sprintf : String → List Arg → String)
    (g : Globals) (Log : config.LogConfig)
    (runmode : String) (stack : List Frame) (now : Nat) (template : String) (args : List Arg) :
    (summary (Infof Sprintf g stack now template args) =
        summary (Info g stack now (Sprintf template args) [])
      ∧ summary (Warnf Sprintf g stack now template args) =
        summary (Warn g stack now (Sprintf template args) [])
      ∧ summary (Errorf Sprintf g stack now template args) =
        summary (Error g stack now (Sprintf template args) [])
      ∧ summary (DPanicf Sprintf g stack now template args) =
        summary (DPanic g stack now (Sprintf template args) [])
      ∧ summary (Panicf Sprintf g stack now template args) =
        summary (Panic g stack now (Sprintf template args) [])
      ∧ summary (Fatalf Sprintf g stack now template args) =
        summary (Fatal g stack now (Sprintf template args) []))
    ∧ (Infof Sprintf (InitLogger Log runmode) stack now template args =
        Info (InitLogger Log runmode) stack now (Sprintf template args) []
      ∧ Warnf Sprintf (InitLogger Log runmode) stack now template args =
        Warn (InitLogger Log runmode) stack now (Sprintf template args) []
      ∧ Errorf Sprintf (InitLogger Log runmode) stack now template args =
        Error (InitLogger Log runmode) stack now (Sprintf template args) []
      ∧ DPanicf Sprintf (InitLogger Log runmode) stack now template args =
        DPanic (InitLogger Log runmode) stack now (Sprintf template args) []
      ∧ Panicf Sprintf (InitLogger Log runmode) stack now template args =
        Panic (InitLogger Log runmode) stack now (Sprintf template args) []
      ∧ Fatalf Sprintf (InitLogger Log runmode) stack now template args =
        Fatal (InitLogger Log runmode) stack now (Sprintf template args) []) := by
  constructor
  · cases hg : g.logger with
    | none =>
      simp [Info, Infof, Warn, Warnf, Error, Errorf, DPanic, DPanicf, Panic, Panicf, Fatal,
        Fatalf, hg]
    | some l =>
      simp only [Info, Infof, Warn, Warnf, Error, Errorf, DPanic, DPanicf, Panic, Panicf, Fatal,
        Fatalf, hg, zap.Logger.Info, zap.Logger.Warn, zap.Logger.Error, zap.Logger.DPanic,
        zap.Logger.Panic, zap.Logger.Fatal]
      exact ⟨logAt_summary_stack _ _ _ _ _ _ _ _, logAt_summary_stack _ _ _ _ _ _ _ _,
        logAt_summary_stack _ _ _ _ _ _ _ _, logAt_summary_stack _ _ _ _ _ _ _ _,
        logAt_summary_stack _ _ _ _ _ _ _ _, logAt_summary_stack _ _ _ _ _ _ _ _⟩
  · simp only [Info, Infof, Warn, Warnf, Error, Errorf, DPanic, DPanicf, Panic, Panicf, Fatal,
      Fatalf, InitLogger_logger, zap.Logger.Info, zap.Logger.Warn, zap.Logger.Error,
      zap.Logger.DPanic, zap.Logger.Panic, zap.Logger.Fatal]
    exact ⟨installed_logAt_wrapper _ _ _ _ _ _ _ _ _ _,
      installed_logAt_wrapper _ _ _ _ _ _ _ _ _ _, installed_logAt_wrapper _ _ _ _ _ _ _ _ _ _,
      installed_logAt_wrapper _ _ _ _ _ _ _ _ _ _, installed_logAt_wrapper _ _ _ _ _ _ _ _ _ _,
      installed_logAt_wrapper _ _ _ _ _ _ _ _ _ _⟩

/-- Claim C5, evaluated on the code: neither constructor puts its logger in
development mode, so `DPanic` and `DPanicf` return normally in every mode; on
the development logger the record goes to the error file and standard-error
and control returns, it does not panic. -/
theorem DPanic_returns_normally_in_every_mode (Sprintf : String → List Arg → String)
    (Log : config.LogConfig) (runmode : String)
    (stack : List Frame) (now : Nat) (msg template : String) (fields : List Field)
    (args : List Arg) :
    (InitDevelopmentLogger Log).development = false
    ∧ (InitProductionLogger Log).development = false
    ∧ (DPanic (InitLogger Log runmode) stack now msg fields).control = Control.returned
    ∧ (DPanicf Sprintf (InitLogger Log runmode) stack now template args).control =
        Control.returned
    ∧ summary (DPanic (InitLogger Log "debug") stack now msg fields) =
        ([ (Encoder.json newPutiEncoderConfig, fileSink Log Log.LoggerFileError, DPanicLevel,
              msg, fields),
            (Encoder.console newPutiEncoderConfig, WriteSyncer.lock OsFile.Stderr, DPanicLevel,
              msg, fields) ],
          Control.returned) := by
  refine ⟨rfl, rfl, ?_, ?_, ?_⟩
  · simp only [DPanic, InitLogger_logger, zap.Logger.DPanic]
    by_cases h : runmode = "release"
    · simp only [h, if_true]
      rw [production_logAt]
      simp [controlAt, DPanicLevel, ErrorLevel, PanicLevel, FatalLevel]
    · simp only [h, if_false]
      rw [development_logAt]
      simp [controlAt, DPanicLevel, ErrorLevel, PanicLevel, FatalLevel]
  · simp only [DPanicf, InitLogger_logger, zap.Logger.DPanic]
    by_cases h : runmode = "release"
    · simp only [h, if_true]
      rw [production_logAt]
      simp [controlAt, DPanicLevel, ErrorLevel, PanicLevel, FatalLevel]
    · simp only [h, if_false]
      rw [development_logAt]
      simp [controlAt, DPanicLevel, ErrorLevel, PanicLevel, FatalLevel]
  · simp only [DPanic, InitLogger_logger, zap.Logger.DPanic]
    rw [if_neg (by decide), development_logAt]
    simp [summary, entryAt, controlAt, DPanicLevel, ErrorLevel, PanicLevel, FatalLevel]

/-- Counterexample to C6: on a file system where neither configured path can be
opened or created, none of the three constructors fails. -/
theorem unopenable_paths_construction_returns :
    closedFs.canOpen badLog.LoggerFileInfo = false
    ∧ closedFs.canOpen badLog.LoggerFileError = false
    ∧ ¬ (∃ err, (InitProductionLogger.call badLog closedFs).1 = Outcome.failed err)
    ∧ ¬ (∃ err, (InitDevelopmentLogger.call badLog closedFs).1 = Outcome.failed err)
    ∧ ¬ (∃ err, (InitLogger.call badLog "release" closedFs).1 = Outcome.failed err)
    ∧ ¬ (∃ err, (InitLogger.call badLog "debug" closedFs).1 = Outcome.failed err) := by
  refine ⟨rfl, rfl, ?_, ?_, ?_, ?_⟩ <;>
    · rintro ⟨err, h⟩
      simp [InitProductionLogger.call, InitDevelopmentLogger.call, InitLogger.call] at h

/-- Claim C6, amended: on every configuration and every file system, each of the
three constructors returns its logger and leaves the file system as it was;
the file sinks hold the configured paths with no file opened, and the sinks
are the configured ones, no other sink standing in for a file sink. -/
theorem construction_always_returns (Log : config.LogConfig) (runmode : String)
    (fs : FileSystem) :
    InitProductionLogger.call Log fs = (Outcome.returned (InitProductionLogger Log), fs)
    ∧ InitDevelopmentLogger.call Log fs = (Outcome.returned (InitDevelopmentLogger Log), fs)
    ∧ InitLogger.call Log runmode fs = (Outcome.returned (InitLogger Log runmode), fs)
    ∧ (InitProductionLogger Log).core.map sinkOf =
      [(Encoder.json newPutiEncoderConfig, fileSink Log Log.LoggerFileError)]
    ∧ (InitDevelopmentLogger Log).core.map sinkOf =
      [ (Encoder.json newPutiEncoderConfig, fileSink Log Log.LoggerFileInfo),
        (Encoder.json newPutiEncoderConfig, fileSink Log Log.LoggerFileError),
        (Encoder.console newPutiEncoderConfig, WriteSyncer.lock OsFile.Stdout),
        (Encoder.console newPutiEncoderConfig, WriteSyncer.lock OsFile.Stderr) ] :=
  ⟨rfl, rfl, rfl, rfl, rfl⟩

/-- Claim C8, evaluated on the code: a record the production logger writes for
an error emission carries the caller, under the key "caller", just as the
records of the development logger do. -/
theorem production_record_carries_caller (Log : config.LogConfig) (site : Frame)
    (rest : List Frame) (now : Nat) (msg : String) (fields : List Field) :
    (Error (InitLogger Log "release") (site :: rest) now msg fields).writes.map
        (fun r => (r.ent.Caller, r.keys)) =
      [(some site, ["level", "time", "caller", "message"] ++ fields.map (fun f => f.Key))]
    ∧ (Error (InitLogger Log "debug") (site :: rest) now msg fields).writes.map
        (fun r => (r.ent.Caller, r.keys)) =
      [(some site, ["level", "time", "caller", "message"] ++ fields.map (fun f => f.Key)),
        (some site, ["time", "level", "caller", "message"] ++ fields.map (fun f => f.Key))] := by
  constructor
  · simp only [Error, InitLogger_logger, zap.Logger.Error]
    rw [if_pos trivial, production_logAt]
    simp [entryAt, Written.keys, jsonKeys, consoleKeys, newPutiEncoderConfig, OmitKey,
      ErrorLevel, FatalLevel]
  · simp only [Error, InitLogger_logger, zap.Logger.Error]
    rw [if_neg (by decide), development_logAt]
    simp [entryAt, Written.keys, jsonKeys, consoleKeys, newPutiEncoderConfig, OmitKey,
      ErrorLevel, FatalLevel]

/-- With the option `Development` the development core does panic on `DPanic`:
the branch of `check` that the constructors leave unused. -/
theorem DPanic_panics_with_Development (Log : config.LogConfig) (stack : List Frame)
    (now : Nat) (msg : String) (fields : List Field) :
    ((zap.New (InitDevelopmentLogger Log).core
        [zap.Opt.AddCaller, zap.Opt.AddCallerSkip 1, zap.Opt.Development]).DPanic
          stack now msg fields).control = Control.panicked msg := by
  simp [InitDevelopmentLogger, zap.New, zap.Opt.apply, NewTee, NewCore, zap.Logger.DPanic,
    zap.Logger.logAt, zap.Logger.check, Core.Enabled, Core.Check, ioCore.Check, ioCore.Enabled,
    highPriority, lowPriority, CheckedEntry.AddCore, CheckedEntry.After, CheckedEntry.Write,
    DPanicLevel, PanicLevel, FatalLevel, ErrorLevel]

end Puti.logger

/-! ## Theorems about the taxonomy delete handler -/

namespace Puti.taxonomy

/-- The guard never calls `DeleteTaxonomy`. -/
theorem checkIfCanDelete_never_deletes (svc : Service) (termID : Nat) (taxonomyType : String) :
    deletes (checkIfCanDelete svc termID taxonomyType).2 = false := by
  unfold checkIfCanDelete
  split
  · rfl
  · split
    · rfl
    · split <;> rfl

/-- Claim C10: `Delete` calls `DeleteTaxonomy` only when the taxonomy type is
"category" or "tag" and `IfTaxonomyHasChild` returned false with no error;
for any other type `checkIfCanDelete` returns the validation error and calls
nothing; whenever `checkIfCanDelete` returns an error the handler sends that
error after the calls of the check and never calls `DeleteTaxonomy`. -/
theorem Delete_guarded_by_checkIfCanDelete (Atoi : String → Int) (svc : Service)
    (c : Context) :
    (deletes (Delete Atoi svc c) = true →
      (c.Query "taxonomy" = "category" ∨ c.Query "taxonomy" = "tag")
      ∧ svc.IfTaxonomyHasChild (toUint64 (Atoi (c.Param "id"))) (c.Query "taxonomy") =
        (false, none))
    ∧ (∀ (termID : Nat) (taxonomyType : String),
        taxonomyType ≠ "category" → taxonomyType ≠ "tag" →
        checkIfCanDelete svc termID taxonomyType =
          (some (Error.NewAdd Error.ErrValidation "error taxonomy."), []))
    ∧ (∀ err, (checkIfCanDelete svc (toUint64 (Atoi (c.Param "id"))) (c.Query "taxonomy")).1 =
          some err →
        Delete Atoi svc c =
          (checkIfCanDelete svc (toUint64 (Atoi (c.Param "id"))) (c.Query "taxonomy")).2 ++
            [Event.SendResponse (some err)]
        ∧ deletes (Delete Atoi svc c) = false) := by
  refine ⟨?_, ?_, ?_⟩
  · intro hdel
    unfold Delete checkIfCanDelete at hdel
    by_cases h1 : c.Query "taxonomy" = "category"
    · refine ⟨Or.inl h1, ?_⟩
      rcases hsvc : svc.IfTaxonomyHasChild (toUint64 (Atoi (c.Param "id"))) (c.Query "taxonomy")
        with ⟨b, e⟩
      cases e <;> cases b <;> simp_all [deletes]
    · by_cases h2 : c.Query "taxonomy" = "tag"
      · refine ⟨Or.inr h2, ?_⟩
        rcases hsvc : svc.IfTaxonomyHasChild (toUint64 (Atoi (c.Param "id")))
          (c.Query "taxonomy") with ⟨b, e⟩
        cases e <;> cases b <;> simp_all [deletes]
      · simp [h1, h2, deletes] at hdel
  · intro termID taxonomyType h1 h2
    simp [checkIfCanDelete, h1, h2]
  · intro err herr
    have hD : Delete Atoi svc c =
        (checkIfCanDelete svc (toUint64 (Atoi (c.Param "id"))) (c.Query "taxonomy")).2 ++
          [Event.SendResponse (some err)] := by
      rcases hchk : checkIfCanDelete svc (toUint64 (Atoi (c.Param "id"))) (c.Query "taxonomy")
        with ⟨r, evs⟩
      rw [hchk] at herr
      simp only at herr
      subst herr
      simp only [Delete, hchk]
    refine ⟨hD, ?_⟩
    have hno := checkIfCanDelete_never_deletes svc (toUint64 (Atoi (c.Param "id")))
      (c.Query "taxonomy")
    rw [hD]
    simp only [deletes, List.any_append, List.any_cons, List.any_nil, Bool.or_false] at hno ⊢
    simp [hno]

end Puti.taxonomy
